import Mathlib

/-!
Shallow embedding of `steemvote/gui/settings.py`: the settings-panel
adapter (`SettingsModel.data` / `SettingsModel.setData`), the
cross-field consistency checker (`SettingsWidget.check_conflicting_values`
with `SettingsWidget.disable_saving`) and the editing widgets'
configured ranges (`MinutesWidget` and the priority spin boxes).

Numeric values are modelled as exact rationals.  Python's
`round(x, n)` (round to `n` decimal places, ties to even) is modelled by
`pyRound`.
-/

/-- Python's `round` to the nearest integer with ties going to the even
integer (banker's rounding), on exact rationals. -/
def pyRoundInt (q : ℚ) : ℤ :=
  let f : ℤ := ⌊q⌋
  let frac : ℚ := q - (f : ℚ)
  if frac < 1/2 then f
  else if 1/2 < frac then f + 1
  else if f % 2 = 0 then f else f + 1

/-- Python's `round(q, n)`: round `q` to `n` decimal places. -/
def pyRound (n : ℕ) (q : ℚ) : ℚ :=
  (pyRoundInt (q * 10 ^ n) : ℚ) / 10 ^ n

/-- The keys of the external configuration store used by the settings
panel. -/
inductive ConfigKey
  | min_post_age
  | max_post_age
  | priority_high
  | priority_normal
  | priority_low
deriving DecidableEq, Repr

/-- Modelled from the spec: the state of the external configuration
store (steemvote's config module is not under src/).  Per the spec's
data model, the time keys are stored in seconds and the priority keys
as fractions; the store owns the record. -/
structure Config where
  min_post_age : ℚ
  max_post_age : ℚ
  priority_high : ℚ
  priority_normal : ℚ
  priority_low : ℚ
deriving DecidableEq, Repr

/-- The text value handed to `config.set` by `SettingsModel.setData`:
either `str(x) + ' minutes'` or `str(x) + '%'`. -/
inductive ConfigText
  | minutes (x : ℚ)
  | percent (x : ℚ)
deriving DecidableEq, Repr

/-- Modelled from the spec: `get_seconds(key)` of the external
configuration store returns the stored seconds value of the key. -/
def Config.get_seconds (cfg : Config) (key : ConfigKey) : ℚ :=
  match key with
  | .min_post_age => cfg.min_post_age
  | .max_post_age => cfg.max_post_age
  | .priority_high => cfg.priority_high
  | .priority_normal => cfg.priority_normal
  | .priority_low => cfg.priority_low

/-- Modelled from the spec: `get_decimal(key)` of the external
configuration store returns the stored fraction value of the key. -/
def Config.get_decimal (cfg : Config) (key : ConfigKey) : ℚ :=
  match key with
  | .min_post_age => cfg.min_post_age
  | .max_post_age => cfg.max_post_age
  | .priority_high => cfg.priority_high
  | .priority_normal => cfg.priority_normal
  | .priority_low => cfg.priority_low

/-- Modelled from the spec: `set(key, text_value)` of the external
configuration store converts the text value back to stored units
(`"x minutes"` stores `x * 60` seconds, `"x%"` stores `x / 100` as a
fraction) and updates the key. -/
def Config.set (cfg : Config) (key : ConfigKey) (v : ConfigText) : Config :=
  let stored : ℚ :=
    match v with
    | .minutes x => x * 60
    | .percent x => x / 100
  match key with
  | .min_post_age => { cfg with min_post_age := stored }
  | .max_post_age => { cfg with max_post_age := stored }
  | .priority_high => { cfg with priority_high := stored }
  | .priority_normal => { cfg with priority_normal := stored }
  | .priority_low => { cfg with priority_low := stored }

/-- A Qt model index as used by `SettingsModel`: a validity flag and a
column number. -/
structure ModelIndex where
  isValid : Bool
  column : ℤ
deriving DecidableEq, Repr

namespace SettingsModel

def MIN_POST_AGE : ℤ := 0

def MAX_POST_AGE : ℤ := 1

def PRIORITY_HIGH : ℤ := 2

def PRIORITY_NORMAL : ℤ := 3

def PRIORITY_LOW : ℤ := 4

def TOTAL_FIELDS : ℤ := 5

/-- `SettingsModel.data`: returns the display-unit value of the field at
the index's column (`None` for an invalid index or an unknown column).
Time fields are `get_seconds(...) / 60.0`, priority fields are
`get_decimal(...) * 100.0`. -/
def data (config : Config) (index : ModelIndex) : Option ℚ :=
  if !index.isValid then none
  else
    let c := index.column
    if c = MIN_POST_AGE then some (config.get_seconds .min_post_age / 60)
    else if c = MAX_POST_AGE then some (config.get_seconds .max_post_age / 60)
    else if c = PRIORITY_HIGH then some (config.get_decimal .priority_high * 100)
    else if c = PRIORITY_NORMAL then some (config.get_decimal .priority_normal * 100)
    else if c = PRIORITY_LOW then some (config.get_decimal .priority_low * 100)
    else none

/-- The outcome of `SettingsModel.setData`: the returned boolean, the
resulting store state, and whether the `dataChanged` signal was
emitted. -/
structure SetDataResult where
  ok : Bool
  config : Config
  dataChanged : Bool
deriving DecidableEq, Repr

/-- `SettingsModel.setData`: rejects an invalid index, a `None` value
and an unknown column (returning `False` with the store untouched and
no signal); otherwise rounds the display value (2 decimals for the time
fields, 4 for the priority fields), writes the suffixed text through
`config.set`, emits `dataChanged` and returns `True`. -/
def setData (config : Config) (index : ModelIndex) (value : Option ℚ) :
    SetDataResult :=
  if !index.isValid then ⟨false, config, false⟩
  else
    match value with
    | none => ⟨false, config, false⟩
    | some v =>
      let c := index.column
      if c = MIN_POST_AGE then
        ⟨true, config.set .min_post_age (.minutes (pyRound 2 v)), true⟩
      else if c = MAX_POST_AGE then
        ⟨true, config.set .max_post_age (.minutes (pyRound 2 v)), true⟩
      else if c = PRIORITY_HIGH then
        ⟨true, config.set .priority_high (.percent (pyRound 4 v)), true⟩
      else if c = PRIORITY_NORMAL then
        ⟨true, config.set .priority_normal (.percent (pyRound 4 v)), true⟩
      else if c = PRIORITY_LOW then
        ⟨true, config.set .priority_low (.percent (pyRound 4 v)), true⟩
      else ⟨false, config, false⟩

end SettingsModel

/-- The UI state touched by the consistency check: the error label's
text and whether the save button is enabled. -/
structure UIState where
  error_label : String
  save_enabled : Bool
deriving DecidableEq, Repr

namespace SettingsWidget

/-- `SettingsWidget.disable_saving`: show the reason and disable the
save button. -/
def disable_saving (reason : String) : UIState :=
  ⟨reason, false⟩

/-- `SettingsWidget.check_conflicting_values`: clears the error label
and enables saving, then disables with a reason at the first failing
check (min/max post age order first, then the priority ordering). -/
def check_conflicting_values (min_post_age max_post_age priority_high
    priority_normal priority_low : ℚ) : UIState :=
  if min_post_age > max_post_age then
    disable_saving "Minimum post age cannot be more than maximum post age"
  else if ¬ (priority_low ≥ priority_normal ∧ priority_normal ≥ priority_high) then
    disable_saving "Priority values must be as follows: low >= normal >= high"
  else ⟨"", true⟩

end SettingsWidget

/-- The constraints a `QDoubleSpinBox` is configured with: Qt clamps
the held value into the inclusive range `[minimum, maximum]` and keeps
it at `decimals` decimal places. -/
structure DoubleSpinBox where
  minimum : ℚ
  maximum : ℚ
  decimals : ℕ
deriving DecidableEq, Repr

/-- The values a configured `QDoubleSpinBox` can hold: inside the
inclusive range and representable with `decimals` decimal places. -/
def DoubleSpinBox.canHold (w : DoubleSpinBox) (v : ℚ) : Prop :=
  w.minimum ≤ v ∧ v ≤ w.maximum ∧ (v * 10 ^ w.decimals).den = 1

instance (w : DoubleSpinBox) (v : ℚ) : Decidable (w.canHold v) := by
  unfold DoubleSpinBox.canHold
  infer_instance

/-- `MinutesWidget`: a `QDoubleSpinBox` with `setRange(0.1, 1000.0)`
and `setDecimals(2)`. -/
def MinutesWidget : DoubleSpinBox :=
  ⟨1/10, 1000, 2⟩

/-- The three priority spin boxes: `setRange(1.0, 100.0)`,
`setDecimals(4)`. -/
def priorityWidget : DoubleSpinBox :=
  ⟨1, 100, 4⟩

/-- C1: whenever `min_post_age > max_post_age`, the consistency checker
fails with the post-age reason, regardless of the three priority
values. -/
theorem check_fails_on_post_age (mn mx ph pn pl : ℚ) (h : mn > mx) :
    SettingsWidget.check_conflicting_values mn mx ph pn pl =
      ⟨"Minimum post age cannot be more than maximum post age", false⟩ := by
  unfold SettingsWidget.check_conflicting_values
  rw [if_pos h]
  rfl

/-- Witness for C1: at min = 5, max = 3 (and priorities 50, 60, 70) the
checker fails with the post-age reason. -/
theorem check_fails_on_post_age_witness :
    (5 : ℚ) > 3 ∧
      SettingsWidget.check_conflicting_values 5 3 50 60 70 =
        ⟨"Minimum post age cannot be more than maximum post age", false⟩ :=
  ⟨by norm_num, check_fails_on_post_age 5 3 50 60 70 (by norm_num)⟩

/-- C2: whenever `min_post_age ≤ max_post_age` but the priority ordering
`low ≥ normal ≥ high` fails, the consistency checker fails with the
priority reason. -/
theorem check_fails_on_priorities (mn mx ph pn pl : ℚ) (h1 : mn ≤ mx)
    (h2 : ¬ (pl ≥ pn ∧ pn ≥ ph)) :
    SettingsWidget.check_conflicting_values mn mx ph pn pl =
      ⟨"Priority values must be as follows: low >= normal >= high", false⟩ := by
  unfold SettingsWidget.check_conflicting_values
  rw [if_neg (not_lt.mpr h1), if_pos h2]
  rfl

/-- Witness for C2: at min = 5, max = 10, low = 50, normal = 60,
high = 10 the checker fails with the priority reason. -/
theorem check_fails_on_priorities_witness :
    (5 : ℚ) ≤ 10 ∧ ¬ ((50 : ℚ) ≥ 60 ∧ (60 : ℚ) ≥ 10) ∧
      SettingsWidget.check_conflicting_values 5 10 10 60 50 =
        ⟨"Priority values must be as follows: low >= normal >= high", false⟩ :=
  ⟨by norm_num, by norm_num,
    check_fails_on_priorities 5 10 10 60 50 (by norm_num) (by norm_num)⟩

/-- C3: whenever `min_post_age ≤ max_post_age` and
`low ≥ normal ≥ high` both hold, the checker returns ok: the save
action is enabled and the error message is empty. -/
theorem check_ok_on_valid (mn mx ph pn pl : ℚ) (h1 : mn ≤ mx)
    (h2 : pl ≥ pn) (h3 : pn ≥ ph) :
    SettingsWidget.check_conflicting_values mn mx ph pn pl = ⟨"", true⟩ := by
  unfold SettingsWidget.check_conflicting_values
  rw [if_neg (not_lt.mpr h1), if_neg (not_not_intro ⟨h2, h3⟩)]

/-- Witness for C3: at min = 5, max = 10, high = 10, normal = 20,
low = 30 the checker returns ok. -/
theorem check_ok_on_valid_witness :
    (5 : ℚ) ≤ 10 ∧ (30 : ℚ) ≥ 20 ∧ (20 : ℚ) ≥ 10 ∧
      SettingsWidget.check_conflicting_values 5 10 10 20 30 = ⟨"", true⟩ :=
  ⟨by norm_num, by norm_num, by norm_num,
    check_ok_on_valid 5 10 10 20 30 (by norm_num) (by norm_num) (by norm_num)⟩

/-- C10: after a run of the consistency check, the save button is
enabled exactly when both validity conditions hold of the current
widget values, and the error message is empty exactly when the save
button is enabled. -/
theorem check_ui_state_iff (mn mx ph pn pl : ℚ) :
    ((SettingsWidget.check_conflicting_values mn mx ph pn pl).save_enabled = true ↔
      (mn ≤ mx ∧ pl ≥ pn ∧ pn ≥ ph)) ∧
    ((SettingsWidget.check_conflicting_values mn mx ph pn pl).error_label = "" ↔
      (SettingsWidget.check_conflicting_values mn mx ph pn pl).save_enabled = true) := by
  unfold SettingsWidget.check_conflicting_values SettingsWidget.disable_saving
  split_ifs with h1 h2
  · exact ⟨⟨False.elim, fun h => absurd h1 (not_lt.mpr h.1)⟩,
      ⟨fun h => absurd h (by decide), False.elim⟩⟩
  · exact ⟨⟨fun _ => ⟨not_lt.mp h1, h2⟩, fun _ => rfl⟩,
      ⟨fun _ => rfl, fun _ => rfl⟩⟩
  · exact ⟨⟨False.elim, fun h => absurd h.2 h2⟩,
      ⟨fun h => absurd h (by decide), False.elim⟩⟩

/-- C4: for every store state, `data` reads each field in display
units: the time fields are the stored seconds divided by 60, the
priority fields the stored fraction times 100. -/
theorem data_converts_to_display_units (cfg : Config) :
    SettingsModel.data cfg ⟨true, 0⟩ = some (cfg.min_post_age / 60) ∧
    SettingsModel.data cfg ⟨true, 1⟩ = some (cfg.max_post_age / 60) ∧
    SettingsModel.data cfg ⟨true, 2⟩ = some (cfg.priority_high * 100) ∧
    SettingsModel.data cfg ⟨true, 3⟩ = some (cfg.priority_normal * 100) ∧
    SettingsModel.data cfg ⟨true, 4⟩ = some (cfg.priority_low * 100) :=
  ⟨rfl, rfl, rfl, rfl, rfl⟩

/-- C5: for every field and display value `v`, `setData` succeeds,
rounds `v` (2 decimals for time fields, 4 for priority fields),
converts to stored units (minutes times 60 into seconds, percent
divided by 100 into a fraction) and writes the result to the store. -/
theorem setData_rounds_and_stores (cfg : Config) (v : ℚ) :
    (SettingsModel.setData cfg ⟨true, 0⟩ (some v)).config.min_post_age
        = pyRound 2 v * 60 ∧
    (SettingsModel.setData cfg ⟨true, 1⟩ (some v)).config.max_post_age
        = pyRound 2 v * 60 ∧
    (SettingsModel.setData cfg ⟨true, 2⟩ (some v)).config.priority_high
        = pyRound 4 v / 100 ∧
    (SettingsModel.setData cfg ⟨true, 3⟩ (some v)).config.priority_normal
        = pyRound 4 v / 100 ∧
    (SettingsModel.setData cfg ⟨true, 4⟩ (some v)).config.priority_low
        = pyRound 4 v / 100 :=
  ⟨rfl, rfl, rfl, rfl, rfl⟩

/-- C6: writing display value `v` to a field and then reading the same
field back yields `v` rounded to the field's declared precision (2
decimals for the time fields, 4 for the priority fields). -/
theorem write_then_read_roundtrip (cfg : Config) (v : ℚ) :
    SettingsModel.data (SettingsModel.setData cfg ⟨true, 0⟩ (some v)).config ⟨true, 0⟩
        = some (pyRound 2 v) ∧
    SettingsModel.data (SettingsModel.setData cfg ⟨true, 1⟩ (some v)).config ⟨true, 1⟩
        = some (pyRound 2 v) ∧
    SettingsModel.data (SettingsModel.setData cfg ⟨true, 2⟩ (some v)).config ⟨true, 2⟩
        = some (pyRound 4 v) ∧
    SettingsModel.data (SettingsModel.setData cfg ⟨true, 3⟩ (some v)).config ⟨true, 3⟩
        = some (pyRound 4 v) ∧
    SettingsModel.data (SettingsModel.setData cfg ⟨true, 4⟩ (some v)).config ⟨true, 4⟩
        = some (pyRound 4 v) := by
  refine ⟨?_, ?_, ?_, ?_, ?_⟩
  · show some (pyRound 2 v * 60 / 60) = some (pyRound 2 v)
    rw [mul_div_cancel_right₀ _ (by norm_num : (60 : ℚ) ≠ 0)]
  · show some (pyRound 2 v * 60 / 60) = some (pyRound 2 v)
    rw [mul_div_cancel_right₀ _ (by norm_num : (60 : ℚ) ≠ 0)]
  · show some (pyRound 4 v / 100 * 100) = some (pyRound 4 v)
    rw [div_mul_cancel₀ _ (by norm_num : (100 : ℚ) ≠ 0)]
  · show some (pyRound 4 v / 100 * 100) = some (pyRound 4 v)
    rw [div_mul_cancel₀ _ (by norm_num : (100 : ℚ) ≠ 0)]
  · show some (pyRound 4 v / 100 * 100) = some (pyRound 4 v)
    rw [div_mul_cancel₀ _ (by norm_num : (100 : ℚ) ≠ 0)]

/-- C7: for every rational display value `v`, range included or not,
`setData` on each of the 5 fields returns `True`, performs the store
write and emits the change signal: there is no adapter-level range
check. -/
theorem setData_accepts_any_value (cfg : Config) (v : ℚ) :
    SettingsModel.setData cfg ⟨true, 0⟩ (some v)
        = ⟨true, cfg.set .min_post_age (.minutes (pyRound 2 v)), true⟩ ∧
    SettingsModel.setData cfg ⟨true, 1⟩ (some v)
        = ⟨true, cfg.set .max_post_age (.minutes (pyRound 2 v)), true⟩ ∧
    SettingsModel.setData cfg ⟨true, 2⟩ (some v)
        = ⟨true, cfg.set .priority_high (.percent (pyRound 4 v)), true⟩ ∧
    SettingsModel.setData cfg ⟨true, 3⟩ (some v)
        = ⟨true, cfg.set .priority_normal (.percent (pyRound 4 v)), true⟩ ∧
    SettingsModel.setData cfg ⟨true, 4⟩ (some v)
        = ⟨true, cfg.set .priority_low (.percent (pyRound 4 v)), true⟩ :=
  ⟨rfl, rfl, rfl, rfl, rfl⟩

/-- C9: `setData` with an invalid index, a `None` value, or a column
outside the 5 declared fields returns `False` and leaves the store
unchanged, with no change signal emitted. -/
theorem setData_rejects_bad_input (cfg : Config) (value : Option ℚ)
    (c : ℤ) (v : ℚ) :
    SettingsModel.setData cfg ⟨false, c⟩ value = ⟨false, cfg, false⟩ ∧
    SettingsModel.setData cfg ⟨true, c⟩ none = ⟨false, cfg, false⟩ ∧
    ((c < 0 ∨ 5 ≤ c) →
      SettingsModel.setData cfg ⟨true, c⟩ (some v) = ⟨false, cfg, false⟩) := by
  refine ⟨rfl, rfl, fun hc => ?_⟩
  have h0 : c ≠ SettingsModel.MIN_POST_AGE := by
    unfold SettingsModel.MIN_POST_AGE; omega
  have h1 : c ≠ SettingsModel.MAX_POST_AGE := by
    unfold SettingsModel.MAX_POST_AGE; omega
  have h2 : c ≠ SettingsModel.PRIORITY_HIGH := by
    unfold SettingsModel.PRIORITY_HIGH; omega
  have h3 : c ≠ SettingsModel.PRIORITY_NORMAL := by
    unfold SettingsModel.PRIORITY_NORMAL; omega
  have h4 : c ≠ SettingsModel.PRIORITY_LOW := by
    unfold SettingsModel.PRIORITY_LOW; omega
  unfold SettingsModel.setData
  simp [h0, h1, h2, h3, h4]

/-- Witness for C9: with a concrete store, column 5, a `None` value and
the value 7, all three rejection cases return `False` and leave the
store at its prior state. -/
theorem setData_rejects_bad_input_witness :
    SettingsModel.setData ⟨300, 600, 1/10, 1/5, 3/10⟩ ⟨false, 5⟩ none
        = ⟨false, ⟨300, 600, 1/10, 1/5, 3/10⟩, false⟩ ∧
      SettingsModel.setData ⟨300, 600, 1/10, 1/5, 3/10⟩ ⟨true, 5⟩ none
        = ⟨false, ⟨300, 600, 1/10, 1/5, 3/10⟩, false⟩ ∧
      (((5 : ℤ) < 0 ∨ 5 ≤ (5 : ℤ)) ∧
        SettingsModel.setData ⟨300, 600, 1/10, 1/5, 3/10⟩ ⟨true, 5⟩ (some 7)
          = ⟨false, ⟨300, 600, 1/10, 1/5, 3/10⟩, false⟩) :=
  ⟨(setData_rejects_bad_input ⟨300, 600, 1/10, 1/5, 3/10⟩ none 5 7).1,
    (setData_rejects_bad_input ⟨300, 600, 1/10, 1/5, 3/10⟩ none 5 7).2.1,
    Or.inr (by norm_num),
    (setData_rejects_bad_input ⟨300, 600, 1/10, 1/5, 3/10⟩ none 5 7).2.2
      (Or.inr (by norm_num))⟩

/-- C8 counterexample: the minutes widget can hold the value 0.1 — Qt's
`setRange(0.1, 1000.0)` is inclusive at both endpoints — yet 0.1 does
not lie in the half-open interval (0.1, 1000.0]. -/
theorem minutes_widget_holds_left_endpoint :
    MinutesWidget.canHold (1/10) ∧
      ¬ ((1/10 : ℚ) > 1/10 ∧ (1/10 : ℚ) ≤ 1000) := by
  constructor
  · refine ⟨le_refl _, by norm_num [MinutesWidget], ?_⟩
    norm_num [MinutesWidget]
  · intro h
    exact absurd h.1 (lt_irrefl _)

/-- C8 (amended): every value the editing widgets can hold lies in the
field's closed valid range: [0.1, 1000.0] for the two post-age fields
and [1.0, 100.0] for the three priority fields. -/
theorem widget_values_in_range (v w : ℚ) (hv : MinutesWidget.canHold v)
    (hw : priorityWidget.canHold w) :
    (1/10 ≤ v ∧ v ≤ 1000) ∧ (1 ≤ w ∧ w ≤ 100) :=
  ⟨⟨hv.1, hv.2.1⟩, ⟨hw.1, hw.2.1⟩⟩

/-- Witness for the amended C8: the minutes widget holds 1 and the
priority widgets hold 50, and both lie in their closed ranges. -/
theorem widget_values_in_range_witness :
    MinutesWidget.canHold 1 ∧ priorityWidget.canHold 50 ∧
      (((1 : ℚ)/10 ≤ 1 ∧ (1 : ℚ) ≤ 1000) ∧ ((1 : ℚ) ≤ 50 ∧ (50 : ℚ) ≤ 100)) :=
  ⟨by norm_num [MinutesWidget, DoubleSpinBox.canHold],
    by norm_num [priorityWidget, DoubleSpinBox.canHold],
    widget_values_in_range 1 50
      (by norm_num [MinutesWidget, DoubleSpinBox.canHold])
      (by norm_num [priorityWidget, DoubleSpinBox.canHold])⟩
